import Mathlib

/-!
Verification of the tiling/tessellation subsystem of `geometry_engine.py`
and of the `/api/tiling` endpoint of `web_api.py`.

The Python code works on floats; the embedding works over an arbitrary
linear ordered field `K` with a floor function (instantiated at `ℚ` for
concrete evaluation and at `ℝ` where the source calls `math.sqrt`).
Irrational constants computed by the source (`math.sqrt(3)`,
`math.sqrt(2/3)`, `math.pi`, `math.cos`, `math.sin`) are passed as
explicit parameters so that the definitions stay executable; theorems
instantiate them at the exact real values.
-/

namespace GeometryEngine

variable {K : Type} [LinearOrderedField K]

/-- Embedding of the Python loop shape
`i = i0; x = x0; while x <= limit: emit (f i x); x += step; i += 1`,
collecting all emitted elements in order.  Every generator loop in
`geometry_engine.py` has this shape (`i` is the row/layer counter; the
plain coordinate loops ignore it).  When `step <= 0` the Python loop
would not terminate; the model returns `[]` there (no theorem uses that
case). -/
def stepLoop {α : Type} [FloorRing K] (f : Nat → K → List α) (step limit : K)
    (i : Nat) (x : K) : List α :=
  if h : step ≤ 0 ∨ limit < x then []
  else f i x ++ stepLoop f step limit (i + 1) (x + step)
termination_by (⌊(limit - x) / step⌋ + 1).toNat
decreasing_by
  push_neg at h
  obtain ⟨h1, h2⟩ := h
  have hs : step ≠ 0 := ne_of_gt h1
  have key : (limit - (x + step)) / step = (limit - x) / step - 1 := by
    field_simp
    ring
  have h0 : (0:ℤ) ≤ ⌊(limit - x) / step⌋ :=
    Int.floor_nonneg.mpr (div_nonneg (by linarith) (le_of_lt h1))
  rw [key, Int.floor_sub_one]
  omega

/-- The loop `x = mn; while x <= mx: visit x; x += step` as the list of
visited coordinates (special case of `stepLoop` with a singleton emitter,
matching the plain coordinate loops of the source). -/
def axisPoints [FloorRing K] (mn mx step : K) : List K :=
  stepLoop (fun _ x => [x]) step mx 0 mn

/-- The shape hierarchy of `geometry_engine.py` as a tagged variant: the
tiling code only dispatches on the concrete class (`isinstance` checks)
and reads the constructor parameters, so each class becomes one
constructor carrying its parameters. -/
inductive NDShape (K : Type) where
  | hyperSphere (dimensions : Nat) (radius : K)
  | hyperCube (dimensions : Nat) (sideLength : K)
  | hyperEllipsoid (dimensions : Nat) (semiAxes : List K)
  | simplex (dimensions : Nat) (sideLength : K)
  | hyperPyramid (dimensions : Nat) (baseSideLength : K) (height : K)
  deriving DecidableEq

/-- `isinstance(shape, HyperCube)`. -/
def NDShape.isHyperCube : NDShape K → Bool
  | .hyperCube _ _ => true
  | _ => false

/-- `isinstance(shape, HyperSphere)`.  `HyperEllipsoid` subclasses
`NDShape` directly in the source, so it is not a `HyperSphere`. -/
def NDShape.isHyperSphere : NDShape K → Bool
  | .hyperSphere _ _ => true
  | _ => false

/-- `isinstance(shape, Simplex)`. -/
def NDShape.isSimplex : NDShape K → Bool
  | .simplex _ _ => true
  | _ => false

/-- A tile's `rotation` entry: a scalar in the 2D generators, a vector of
zeros in the 3D and n-D generators. -/
inductive TileRot (K : Type) where
  | scalar (r : K)
  | vec (v : List K)
  deriving DecidableEq

/-- One tile dict produced by `RegularTiling`: `position`, a back
reference to the base shape, `rotation` and `scale`. -/
structure RegularTile (K : Type) where
  position : List K
  shape : NDShape K
  rotation : TileRot K
  scale : K
  deriving DecidableEq

/-- Mutable state of a `RegularTiling` object: the constructor arguments
plus `tiles` and `bounds`, which `generate_pattern` overwrites. -/
structure RegularTilingState (K : Type) where
  dimensions : Nat
  baseShape : NDShape K
  spacing : K
  tiles : List (RegularTile K)
  bounds : Option (List (K × K))
  deriving DecidableEq

/-- `RegularTiling._calculate_optimal_spacing`. -/
def calculateOptimalSpacing : NDShape K → K
  | .hyperCube _ side => side
  | .hyperSphere _ r => 2 * r
  | .simplex _ side => side
  | _ => 1

/-- `RegularTiling.__init__(dimensions, base_shape, spacing=None)`.
Python evaluates `spacing or self._calculate_optimal_spacing()`, so both
`None` and `0.0` fall back to the optimal spacing. -/
def regularTilingInit (dimensions : Nat) (baseShape : NDShape K)
    (spacing : Option K) : RegularTilingState K :=
  { dimensions := dimensions
    baseShape := baseShape
    spacing :=
      match spacing with
      | none => calculateOptimalSpacing baseShape
      | some s => if s = 0 then calculateOptimalSpacing baseShape else s
    tiles := []
    bounds := none }

/-- `RegularTiling._generate_2d_regular_tiling`.  The method first
computes `spacing = self.spacing / density`, which raises
`ZeroDivisionError` when `density == 0`; it then unpacks `bounds[0]` and
`bounds[1]` before dispatching on the shape class, so a bounds list
shorter than 2 raises `IndexError`.  Both exceptions are modelled as
`.error`; `sqrt3` stands for `math.sqrt(3)`. -/
def generate2dRegularTiling [FloorRing K] (sqrt3 : K) (baseShape : NDShape K)
    (dimensions : Nat) (spacing0 : K) (bounds : List (K × K)) (density : K) :
    Except String (List (RegularTile K)) :=
  if density = 0 then .error "ZeroDivisionError: float division by zero"
  else
    let spacing := spacing0 / density
    match bounds with
    | b0 :: b1 :: _ =>
      let xMin := b0.1
      let xMax := b0.2
      let yMin := b1.1
      let yMax := b1.2
      if baseShape.isHyperCube then
        -- Square tiling: uniform grid over both axes.
        .ok (stepLoop (fun _ x =>
              stepLoop (fun _ y =>
                  [{ position := [x, y], shape := baseShape,
                     rotation := .scalar 0, scale := density }])
                spacing yMax 0 yMin)
            spacing xMax 0 xMin)
      else if baseShape.isSimplex && dimensions == 2 then
        -- Triangular tiling: alternating-offset rows, orientation by parity.
        let spacingX := spacing
        let spacingY := spacing * sqrt3 / 2
        .ok (stepLoop (fun row y =>
              stepLoop (fun _ x =>
                  [{ position := [x, y], shape := baseShape,
                     rotation := .scalar (if row % 2 == 0 then 0 else 180),
                     scale := density }])
                spacingX xMax 0
                (xMin + (if row % 2 == 1 then spacingX / 2 else 0)))
            spacingY yMax 0 yMin)
      else if baseShape.isHyperSphere then
        -- Hexagonal close packing of circles: alternating-offset rows.
        let spacingX := spacing
        let spacingY := spacing * sqrt3 / 2
        .ok (stepLoop (fun row y =>
              stepLoop (fun _ x =>
                  [{ position := [x, y], shape := baseShape,
                     rotation := .scalar 0, scale := density }])
                spacingX xMax 0
                (xMin + (if row % 2 == 1 then spacingX / 2 else 0)))
            spacingY yMax 0 yMin)
      else
        .ok []
    | _ => .error "IndexError: list index out of range"

/-- `RegularTiling._generate_3d_regular_tiling`; as in 2D, the division
`self.spacing / density` raises `ZeroDivisionError` at `density == 0`
before anything else; `sqrt23` stands for `math.sqrt(2/3)`, the
z-advance factor of the sphere layers. -/
def generate3dRegularTiling [FloorRing K] (sqrt23 : K) (baseShape : NDShape K)
    (spacing0 : K) (bounds : List (K × K)) (density : K) :
    Except String (List (RegularTile K)) :=
  if density = 0 then .error "ZeroDivisionError: float division by zero"
  else
    let spacing := spacing0 / density
    match bounds with
    | b0 :: b1 :: b2 :: _ =>
      let xMin := b0.1
      let xMax := b0.2
      let yMin := b1.1
      let yMax := b1.2
      let zMin := b2.1
      let zMax := b2.2
      if baseShape.isHyperCube then
        -- Cubic tiling: uniform grid over the three axes.
        .ok (stepLoop (fun _ x =>
              stepLoop (fun _ y =>
                  stepLoop (fun _ z =>
                      [{ position := [x, y, z], shape := baseShape,
                         rotation := .vec [0, 0, 0], scale := density }])
                    spacing zMax 0 zMin)
                spacing yMax 0 yMin)
            spacing xMax 0 xMin)
      else if baseShape.isHyperSphere then
        -- FCC-style packing: alternate A and B layers, advance z by
        -- spacing * sqrt(2/3) per layer.
        .ok (stepLoop (fun layer z =>
              if layer % 2 == 0 then
                stepLoop (fun _ x =>
                    stepLoop (fun _ y =>
                        [{ position := [x, y, z], shape := baseShape,
                           rotation := .vec [0, 0, 0], scale := density }])
                      spacing yMax 0 yMin)
                  spacing xMax 0 xMin
              else
                stepLoop (fun _ x =>
                    stepLoop (fun _ y =>
                        [{ position := [x, y, z], shape := baseShape,
                           rotation := .vec [0, 0, 0], scale := density }])
                      spacing yMax 0 (yMin + spacing / 2))
                  spacing xMax 0 (xMin + spacing / 2))
            (spacing * sqrt23) zMax 0 zMin)
      else
        .ok []
    | _ => .error "IndexError: list index out of range"

/-- The recursive helper `generate_grid_points(dim_index, current_position)`
of `RegularTiling._generate_nd_regular_tiling`, rephrased as structural
recursion on the number of remaining axes paired with
`bounds[dim_index:]`.  The source reads `bounds[dim_index]` on entering a
level (hence `IndexError` when the bounds list is shorter than the
dimension count, but only if every outer loop ran at least once); the
recursive call is hoisted out of the coordinate loop, which is sound
because its value does not depend on the loop variable. -/
def generateGridPoints [FloorRing K] (spacing : K) :
    Nat → List (K × K) → Except String (List (List K))
  | 0, _ => .ok [[]]
  | _ + 1, [] => .error "IndexError: list index out of range"
  | remaining + 1, b :: rest =>
    match axisPoints b.1 b.2 spacing with
    | [] => .ok []
    | _ :: _ =>
      (generateGridPoints spacing remaining rest).map fun ps =>
        stepLoop (fun _ c => ps.map fun p => c :: p) spacing b.2 0 b.1

/-- `RegularTiling._generate_nd_regular_tiling`; the division
`self.spacing / density` raises `ZeroDivisionError` at `density == 0`
before the grid enumeration starts. -/
def generateNdRegularTiling [FloorRing K] (baseShape : NDShape K)
    (dimensions : Nat) (spacing0 : K) (bounds : List (K × K)) (density : K) :
    Except String (List (RegularTile K)) :=
  if density = 0 then .error "ZeroDivisionError: float division by zero"
  else
    let spacing := spacing0 / density
    (generateGridPoints spacing dimensions bounds).map fun ps =>
      ps.map fun p =>
        { position := p, shape := baseShape,
          rotation := .vec (List.replicate dimensions 0), scale := density }

/-- `RegularTiling.generate_pattern(bounds, density)`.  The method first
assigns `self.bounds = bounds; self.tiles = []` and then dispatches; on
an exception the object is left in that cleared state, which the error
branch carries. -/
def regularGeneratePattern [FloorRing K] (sqrt3 sqrt23 : K)
    (st : RegularTilingState K) (bounds : List (K × K)) (density : K) :
    Except (String × RegularTilingState K) (RegularTilingState K) :=
  let cleared : RegularTilingState K :=
    { st with bounds := some bounds, tiles := [] }
  let res : Except String (List (RegularTile K)) :=
    if st.dimensions = 2 then
      generate2dRegularTiling sqrt3 st.baseShape st.dimensions st.spacing
        bounds density
    else if st.dimensions = 3 then
      generate3dRegularTiling sqrt23 st.baseShape st.spacing bounds density
    else
      generateNdRegularTiling st.baseShape st.dimensions st.spacing bounds
        density
  match res with
  | .ok ts => .ok { cleared with tiles := ts }
  | .error e => .error (e, cleared)

/-- Truthiness of the stored bounds: Python `not self.bounds` is true for
`None` and for the empty list. -/
def boundsTruthy : Option (List (K × K)) → Bool
  | some (_ :: _) => true
  | _ => false

/-- `RegularTiling.get_coverage_efficiency`.  The call
`self.base_shape.get_volume()` is passed in as `shapeVolume` (its value
is a closed-form formula depending on the shape class; every shape class
of the source validates its parameters so the value is nonnegative). -/
def getCoverageEfficiency (shapeVolume : K) (tiles : List (RegularTile K))
    (bounds : Option (List (K × K))) : K :=
  if tiles.isEmpty || !boundsTruthy bounds then 0
  else
    let totalSpace := ((bounds.getD []).map fun b => b.2 - b.1).prod
    let tileSpace := shapeVolume * tiles.length
    if 0 < totalSpace then min (tileSpace / totalSpace) 1 else 0

/-- One tile dict produced by `HexagonalTiling`: the `shape` entry is the
constant string `"hexagon"`. -/
structure HexTile (K : Type) where
  position : List K
  shape : String
  sideLength : K
  rotation : K
  scale : K
  vertices : List (List K)
  deriving DecidableEq

/-- Mutable state of a `HexagonalTiling` object (`dimensions` is fixed to
2 and `base_shape` to `None` by the constructor). -/
structure HexagonalTilingState (K : Type) where
  sideLength : K
  hexagonHeight : K
  hexagonWidth : K
  tiles : List (HexTile K)
  bounds : Option (List (K × K))
  deriving DecidableEq

/-- `HexagonalTiling.__init__(side_length)`; `sqrt3` stands for
`math.sqrt(3)`. -/
def hexagonalTilingInit (sqrt3 side : K) : HexagonalTilingState K :=
  { sideLength := side
    hexagonHeight := side * sqrt3
    hexagonWidth := side * 2
    tiles := []
    bounds := none }

/-- `HexagonalTiling._get_hexagon_vertices`: six vertices obtained by
rotating by 60-degree increments; `cosF`, `sinF`, `piK` stand for
`math.cos`, `math.sin`, `math.pi`. -/
def getHexagonVertices (cosF sinF : K → K) (piK : K)
    (centerX centerY side : K) : List (List K) :=
  (List.range 6).map fun i =>
    [centerX + side * cosF ((i : K) * piK / 3),
     centerY + side * sinF ((i : K) * piK / 3)]

/-- `HexagonalTiling.generate_pattern(bounds, density)`: row-major loop,
horizontal spacing `hexagon_width * 0.75 / density`, vertical spacing
`hexagon_height / density`, odd rows offset by half the horizontal
spacing.  As in the source, `self.bounds` and `self.tiles` are assigned
before `bounds[0]`/`bounds[1]` are unpacked, so a short bounds list
raises with the tiles cleared. -/
def hexagonalGeneratePattern [FloorRing K] (cosF sinF : K → K) (piK : K)
    (st : HexagonalTilingState K) (bounds : List (K × K)) (density : K) :
    Except (String × HexagonalTilingState K) (HexagonalTilingState K) :=
  let cleared : HexagonalTilingState K :=
    { st with bounds := some bounds, tiles := [] }
  match bounds with
  | b0 :: b1 :: _ =>
    let xMin := b0.1
    let xMax := b0.2
    let yMin := b1.1
    let yMax := b1.2
    let spacingX := st.hexagonWidth * (3 / 4) / density
    let spacingY := st.hexagonHeight / density
    .ok { cleared with
          tiles :=
            stepLoop (fun row y =>
                stepLoop (fun _ x =>
                    [{ position := [x, y], shape := "hexagon",
                       sideLength := st.sideLength * density, rotation := 0,
                       scale := density,
                       vertices := getHexagonVertices cosF sinF piK x y
                         (st.sideLength * density) }])
                  spacingX xMax 0
                  (xMin + (if row % 2 == 1 then spacingX / 2 else 0)))
              spacingY yMax 0 yMin }
  | _ => .error ("IndexError: list index out of range", cleared)

/-- `HexagonalTiling.get_coverage_efficiency`: the constant `1.0`. -/
def hexagonalGetCoverageEfficiency (_st : HexagonalTilingState K) : K := 1

/-- One tile dict produced by `VoronoiTiling`: the `shape` entry is the
constant string `"voronoi_cell"`. -/
structure VoronoiTile (K : Type) where
  position : List K
  seedIndex : Nat
  shape : String
  vertices : List (List K)
  scale : K
  deriving DecidableEq

/-- Mutable state of a `VoronoiTiling` object. -/
structure VoronoiTilingState (K : Type) where
  dimensions : Nat
  seedPoints : List (List K)
  tiles : List (VoronoiTile K)
  bounds : Option (List (K × K))
  deriving DecidableEq

/-- `VoronoiTiling._calculate_voronoi_vertices`: for dimensions other
than 2 the method returns `[]`; in 2D it unpacks `bounds[0]`, `bounds[1]`
(raising `IndexError` on shorter bounds) and then builds a fixed-size
square placeholder around the seed (`cell_size = 1.0`), reading `seed[0]`
and `seed[1]` (raising `IndexError` on a shorter seed). -/
def calculateVoronoiVertices (dimensions : Nat) (seed : List K)
    (bounds : List (K × K)) : Except String (List (List K)) :=
  if dimensions ≠ 2 then .ok []
  else
    match bounds, seed with
    | _ :: _ :: _, s0 :: s1 :: _ =>
      .ok [[s0 - 1, s1 - 1], [s0 + 1, s1 - 1], [s0 + 1, s1 + 1],
           [s0 - 1, s1 + 1]]
    | _, _ => .error "IndexError: list index out of range"

/-- The `for i, seed in enumerate(self.seed_points)` loop of
`VoronoiTiling.generate_pattern`, appending one cell per seed to the
accumulator (the source appends to `self.tiles` in place, so an error
mid-loop leaves the already-built cells in the state). -/
def voronoiGenerateAux (dimensions : Nat) (bounds : List (K × K))
    (density : K) :
    Nat → List (List K) → List (VoronoiTile K) →
      Except (String × List (VoronoiTile K)) (List (VoronoiTile K))
  | _, [], acc => .ok acc
  | i, seed :: rest, acc =>
    match calculateVoronoiVertices dimensions seed bounds with
    | .error e => .error (e, acc)
    | .ok vs =>
      voronoiGenerateAux dimensions bounds density (i + 1) rest
        (acc ++ [{ position := seed, seedIndex := i, shape := "voronoi_cell",
                   vertices := vs, scale := density }])

/-- `VoronoiTiling.generate_pattern(bounds, density)`. -/
def voronoiGeneratePattern (st : VoronoiTilingState K)
    (bounds : List (K × K)) (density : K) :
    Except (String × VoronoiTilingState K) (VoronoiTilingState K) :=
  let cleared : VoronoiTilingState K :=
    { st with bounds := some bounds, tiles := [] }
  match voronoiGenerateAux st.dimensions bounds density 0 st.seedPoints [] with
  | .ok ts => .ok { cleared with tiles := ts }
  | .error (e, partialTiles) =>
    .error (e, { cleared with tiles := partialTiles })

/-- `VoronoiTiling.get_coverage_efficiency`: the constant `1.0`. -/
def voronoiGetCoverageEfficiency (_st : VoronoiTilingState K) : K := 1

/-- `TilingAnalyzer._calculate_coordination_number`, as a function of the
pattern-type tag, the optional base shape and the dimension count (the
only fields the method reads). -/
def calculateCoordinationNumber (patternType : String)
    (baseShape : Option (NDShape K)) (dimensions : Nat) : Nat :=
  if patternType = "hexagonal" then 6
  else if (match baseShape with
           | some s => s.isHyperCube
           | none => false) then 2 * dimensions
  else if (match baseShape with
           | some s => s.isSimplex
           | none => false) then dimensions + 1
  else 4

/-- `TilingAnalyzer._get_vertex_configuration`. -/
def getVertexConfig (patternType : String)
    (baseShape : Option (NDShape K)) : String :=
  if patternType = "hexagonal" then "6.6.6"
  else if (match baseShape with
           | some s => s.isHyperCube
           | none => false) then "4.4.4.4"
  else if (match baseShape with
           | some s => s.isSimplex
           | none => false) then "3.3.3.3.3.3"
  else "unknown"

/-- Substring containment, used to state the error-message claims. -/
def strContains (sub s : String) : Prop :=
  ∃ pre post, s = pre ++ sub ++ post

/-- The request model `TilingRequest` of `web_api.py` (pydantic fields;
`bounds` entries are arbitrary float lists, converted to pairs by the
endpoint). -/
structure TilingRequest (K : Type) where
  tilingType : String
  dimensions : Nat
  bounds : List (List K)
  density : K
  shapeType : Option String
  shapeSize : Option K
  hexSideLength : Option K
  parameter : Option K
  sideLength : Option K
  seedPoints : Option (List (List K))
  numRandomSeeds : Option Nat

/-- The tiling object built by the `/api/tiling` endpoint before
`generate_pattern` is invoked on it. -/
inductive BuiltTiling (K : Type) where
  | regular (st : RegularTilingState K)
  | hexagonal (st : HexagonalTilingState K)
  | voronoi (st : VoronoiTilingState K)

/-- The bounds conversion
`bounds = [(bound[0], bound[1]) for bound in request.bounds]`:
`IndexError` on an inner list shorter than 2. -/
def convertBounds : List (List K) → Except String (List (K × K))
  | [] => .ok []
  | b :: rest =>
    match b with
    | x :: y :: _ => (convertBounds rest).map fun bs => (x, y) :: bs
    | _ => .error "IndexError: list index out of range"

/-- `HyperCube(dimensions, side_length)`: `NDShape.__init__` rejects a
non-positive dimension count, then `validate_parameters` rejects a
non-positive side length. -/
def mkHyperCube (dimensions : Nat) (side : K) : Except String (NDShape K) :=
  if dimensions = 0 then .error "Dimensions must be positive"
  else if side ≤ 0 then .error "Side length must be positive"
  else .ok (.hyperCube dimensions side)

/-- `HyperSphere(dimensions, radius)`. -/
def mkHyperSphere (dimensions : Nat) (radius : K) :
    Except String (NDShape K) :=
  if dimensions = 0 then .error "Dimensions must be positive"
  else if radius ≤ 0 then .error "Radius must be positive"
  else .ok (.hyperSphere dimensions radius)

/-- `Simplex(dimensions, side_length)` (the simplex only rejects a
strictly negative side length). -/
def mkSimplex (dimensions : Nat) (side : K) : Except String (NDShape K) :=
  if dimensions = 0 then .error "Dimensions must be positive"
  else if side < 0 then .error "Side length cannot be negative"
  else .ok (.simplex dimensions side)

/-- The validation and construction logic of the `create_tiling` endpoint
(`web_api.py`), up to the point where the tiling object exists and
`generate_pattern` would run.  `randomSeeds n` stands for the `n` points
drawn from `random.uniform` in the Voronoi random branch (a process-wide
random source with no caller-controlled seed); `sqrt3` stands for
`math.sqrt(3)` used by the `HexagonalTiling` constructor.  Every raised
`ValueError` message is preserved verbatim. -/
def createTiling (sqrt3 : K) (randomSeeds : Nat → List (List K))
    (req : TilingRequest K) : Except String (BuiltTiling K) :=
  if req.bounds.length ≠ req.dimensions then
    .error ("Number of bounds (" ++ toString req.bounds.length ++
      ") must match dimensions (" ++ toString req.dimensions ++ ")")
  else
    match convertBounds req.bounds with
    | .error e => .error e
    | .ok _bounds =>
      if req.tilingType = "regular" then
        match
          (match req.shapeSize, req.parameter with
           | none, some p => Except.ok p
           | none, none =>
             Except.error
               "Regular tiling requires \x27shape_size\x27 (or deprecated \x27parameter\x27)"
           | some s, _ => Except.ok s : Except String K) with
        | .error e => .error e
        | .ok shapeSize =>
          match req.shapeType with
          | none => .error "Regular tiling requires \x27shape_type\x27"
          | some shapeType =>
            if shapeType = "" then
              .error "Regular tiling requires \x27shape_type\x27"
            else
              match
                (if shapeType = "cube" then mkHyperCube req.dimensions shapeSize
                 else if shapeType = "sphere" then
                   mkHyperSphere req.dimensions shapeSize
                 else if shapeType = "simplex" then
                   mkSimplex req.dimensions shapeSize
                 else
                   .error ("Unsupported shape type: " ++ shapeType)) with
              | .error e => .error e
              | .ok baseShape =>
                .ok (.regular (regularTilingInit req.dimensions baseShape none))
      else if req.tilingType = "hexagonal" then
        if req.dimensions ≠ 2 then
          .error "Hexagonal tiling is only supported in 2D"
        else
          match
            (match req.hexSideLength, req.sideLength with
             | none, some s => Except.ok s
             | none, none =>
               Except.error
                 "Hexagonal tiling requires \x27hex_side_length\x27 (or deprecated \x27side_length\x27)"
             | some s, _ => Except.ok s : Except String K) with
          | .error e => .error e
          | .ok hexSide => .ok (.hexagonal (hexagonalTilingInit sqrt3 hexSide))
      else if req.tilingType = "voronoi" then
        if req.dimensions ≠ 2 then
          .error "Voronoi tiling is currently only supported in 2D"
        else
          match req.seedPoints with
          | some (s :: ss) =>
            .ok (.voronoi
              { dimensions := req.dimensions, seedPoints := s :: ss,
                tiles := [], bounds := none })
          | _ =>
            match req.numRandomSeeds with
            | some (n + 1) =>
              .ok (.voronoi
                { dimensions := req.dimensions,
                  seedPoints := randomSeeds (n + 1), tiles := [],
                  bounds := none })
            | _ =>
              .error
                "Voronoi tiling requires either \x27seed_points\x27 or \x27num_random_seeds\x27"
      else
        .error ("Unsupported tiling type: " ++ req.tilingType)

/-- Concrete tile list produced by a first successful generation
(2D unit cubes over `[[0,1],[0,1]]`, density 1), used to exhibit the
non-atomicity of `generate_pattern`. -/
def c3Tiles : List (RegularTile ℚ) :=
  [{ position := [0, 0], shape := .hyperCube 2 1, rotation := .scalar 0,
     scale := 1 },
   { position := [0, 1], shape := .hyperCube 2 1, rotation := .scalar 0,
     scale := 1 },
   { position := [1, 0], shape := .hyperCube 2 1, rotation := .scalar 0,
     scale := 1 },
   { position := [1, 1], shape := .hyperCube 2 1, rotation := .scalar 0,
     scale := 1 }]

/-- State of the pattern after the first (successful) generation. -/
def c3AfterFirst : RegularTilingState ℚ :=
  { dimensions := 2, baseShape := .hyperCube 2 1, spacing := 1,
    tiles := c3Tiles, bounds := some [(0, 1), (0, 1)] }

/-- State of the pattern after the second (failing) generation: the
previous four tiles are gone. -/
def c3AfterError : RegularTilingState ℚ :=
  { dimensions := 2, baseShape := .hyperCube 2 1, spacing := 1,
    tiles := [], bounds := some [(0, 1)] }

/-- A concrete hexagonal request with `dimensions = 3`
(matching bounds list). -/
def hexReq3 : TilingRequest ℚ :=
  { tilingType := "hexagonal", dimensions := 3,
    bounds := [[0, 1], [0, 1], [0, 1]], density := 1, shapeType := none,
    shapeSize := none, hexSideLength := some 1, parameter := none,
    sideLength := none, seedPoints := none, numRandomSeeds := none }

/-- A concrete Voronoi request with neither seed points nor a random
seed count. -/
def vorReqNoSeeds : TilingRequest ℚ :=
  { tilingType := "voronoi", dimensions := 2, bounds := [[0, 1], [0, 1]],
    density := 1, shapeType := none, shapeSize := none,
    hexSideLength := none, parameter := none, sideLength := none,
    seedPoints := none, numRandomSeeds := none }

/-- `List.flatMap` over `range (m+1)` peels off the first index. -/
theorem flatMap_range_succ {α : Type} (g : Nat → List α) (m : Nat) :
    (List.range (m + 1)).flatMap g =
      g 0 ++ (List.range m).flatMap (fun j => g (j + 1)) := by
  induction m with
  | zero => simp [List.range_succ]
  | succ m ih =>
    rw [List.range_succ, List.flatMap_append, ih, List.range_succ,
      List.flatMap_append]
    simp [List.append_assoc]

/-- Closed form of `stepLoop`: when the step is positive and the start is
within the limit, the loop visits exactly `⌊(limit - x)/step⌋ + 1` values
`x + j*step`. -/
theorem stepLoop_eq {α : Type} [FloorRing K] (f : Nat → K → List α)
    (step limit : K) (hstep : 0 < step) :
    ∀ (n : Nat) (i : Nat) (x : K), x ≤ limit → (⌊(limit - x) / step⌋).toNat = n →
      stepLoop f step limit i x =
        (List.range (n + 1)).flatMap fun j => f (i + j) (x + j * step) := by
  intro n
  induction n with
  | zero =>
    intro i x hx hn
    rw [stepLoop.eq_def, dif_neg (by push_neg; exact ⟨hstep, hx⟩)]
    have hq : (0:K) ≤ (limit - x) / step :=
      div_nonneg (by linarith) (le_of_lt hstep)
    have hfloor : ⌊(limit - x) / step⌋ = 0 := by
      have := Int.floor_nonneg.mpr hq
      omega
    have hlt1 : (limit - x) / step < 1 := by
      have := Int.lt_floor_add_one ((limit - x) / step)
      rw [hfloor] at this
      simpa using this
    have hlt : limit < x + step := by
      have := (div_lt_one hstep).mp hlt1
      linarith
    rw [stepLoop.eq_def, dif_pos (Or.inr hlt)]
    simp [List.range_succ]
  | succ m ih =>
    intro i x hx hn
    rw [stepLoop.eq_def, dif_neg (by push_neg; exact ⟨hstep, hx⟩)]
    have h1z : (1:ℤ) ≤ ⌊(limit - x) / step⌋ := by omega
    have h1k : (1:K) ≤ (limit - x) / step := by
      have := Int.le_floor.mp h1z
      simpa using this
    have hxs : x + step ≤ limit := by
      have := (one_le_div hstep).mp h1k
      linarith
    have hmeas : (⌊(limit - (x + step)) / step⌋).toNat = m := by
      have hs : step ≠ 0 := ne_of_gt hstep
      have key : (limit - (x + step)) / step = (limit - x) / step - 1 := by
        field_simp
        ring
      rw [key, Int.floor_sub_one]
      omega
    rw [ih (i + 1) (x + step) hxs hmeas,
      flatMap_range_succ (fun j => f (i + j) (x + (j : K) * step)) (m + 1)]
    congr 1
    · simp
    · apply congrArg
      funext j
      have e1 : i + 1 + j = i + (j + 1) := by omega
      have e2 : x + step + (j : K) * step = x + ((j : K) + 1) * step := by ring
      rw [e1, e2]
      norm_num

/-- Mapping via singleton fibers. -/
theorem flatMap_singleton_map {α β : Type} (l : List α) (g : α → β) :
    (l.flatMap fun a => [g a]) = l.map g := by
  induction l with
  | nil => rfl
  | cons a l ih => simp [ih]

/-- Length of a `flatMap` whose fibers all have the same length. -/
theorem length_flatMap_const {α β : Type} (l : List β) (g : β → List α) (c : Nat)
    (h : ∀ b ∈ l, (g b).length = c) :
    (l.flatMap g).length = l.length * c := by
  induction l with
  | nil => simp
  | cons a l ih =>
    have ha := h a (List.mem_cons_self a l)
    have ih' := ih fun b hb => h b (List.mem_cons_of_mem a hb)
    simp only [List.flatMap_cons, List.length_append, ih', ha, List.length_cons]
    ring

/-- Closed form for `axisPoints`. -/
theorem axisPoints_eq [FloorRing K] (mn mx step : K) (hstep : 0 < step)
    (h : mn ≤ mx) :
    axisPoints mn mx step =
      (List.range ((⌊(mx - mn) / step⌋).toNat + 1)).map
        fun (j : Nat) => mn + (j : K) * step := by
  rw [axisPoints, stepLoop_eq _ step mx hstep _ 0 mn h rfl]
  exact flatMap_singleton_map _ _

theorem axisPoints_length [FloorRing K] (mn mx step : K) (hstep : 0 < step)
    (h : mn ≤ mx) :
    (axisPoints mn mx step).length = (⌊(mx - mn) / step⌋).toNat + 1 := by
  rw [axisPoints_eq mn mx step hstep h]
  simp

theorem axisPoints_ne_nil [FloorRing K] (mn mx step : K) (hstep : 0 < step)
    (h : mn ≤ mx) : axisPoints mn mx step ≠ [] := by
  have := axisPoints_length mn mx step hstep h
  intro hnil
  rw [hnil] at this
  simp at this

/-- Length of a `stepLoop` whose emitter always emits `c` elements. -/
theorem stepLoop_length_const [FloorRing K] {α : Type} (f : Nat → K → List α)
    (step limit : K) (c : Nat) (hstep : 0 < step)
    (hf : ∀ i x, (f i x).length = c) (i : Nat) (x : K) (hx : x ≤ limit) :
    (stepLoop f step limit i x).length =
      ((⌊(limit - x) / step⌋).toNat + 1) * c := by
  rw [stepLoop_eq f step limit hstep _ i x hx rfl,
    length_flatMap_const _ _ c (fun b _ => hf _ _)]
  simp

/-- The n-dimensional grid enumeration succeeds on a bounds list of the
right length with nonempty axis intervals, and visits the full Cartesian
grid. -/
theorem generateGridPoints_ok [FloorRing K] (spacing : K) (hs : 0 < spacing) :
    ∀ (bs : List (K × K)), (∀ p ∈ bs, p.1 < p.2) →
      ∃ ps, generateGridPoints spacing bs.length bs = .ok ps ∧
        ps.length =
          (bs.map fun p => (⌊(p.2 - p.1) / spacing⌋).toNat + 1).prod := by
  intro bs
  induction bs with
  | nil => exact fun _ => ⟨[[]], rfl, by simp⟩
  | cons b rest ih =>
    intro hb
    obtain ⟨ps, hps, hlen⟩ := ih fun p hp => hb p (List.mem_cons_of_mem _ hp)
    have hble : b.1 ≤ b.2 := le_of_lt (hb b (List.mem_cons_self _ _))
    have hne := axisPoints_ne_nil b.1 b.2 spacing hs hble
    refine ⟨stepLoop (fun _ c => ps.map fun p => c :: p) spacing b.2 0 b.1,
      ?_, ?_⟩
    · simp only [List.length_cons, generateGridPoints]
      cases hax : axisPoints b.1 b.2 spacing with
      | nil => exact absurd hax hne
      | cons a t => rw [hps]; rfl
    · rw [stepLoop_length_const _ _ _ ps.length hs (fun _ _ => by simp) 0 b.1
        hble]
      simp [hlen]

/-- Tile count of a regular cubic tiling: `generate_pattern` on a
hypercube base succeeds and yields the full grid count
`∏ (⌊(max-min)/spacing⌋ + 1)` with `spacing = side/density`, whatever
the dimension count (2D, 3D and n-D paths all lay out the same grid for
a cube). -/
theorem regularCube_tileCount [FloorRing K] (sqrt3 sqrt23 side density : K)
    (n : Nat) (bs : List (K × K)) (hside : 0 < side) (hdens : 0 < density)
    (hlen : bs.length = n) (hb : ∀ p ∈ bs, p.1 < p.2) :
    (regularGeneratePattern sqrt3 sqrt23
        (regularTilingInit n (.hyperCube n side) none) bs density).map
        (fun st => st.tiles.length) =
      .ok ((bs.map fun p =>
        (⌊(p.2 - p.1) / (side / density)⌋).toNat + 1).prod) := by
  have hs : 0 < side / density := div_pos hside hdens
  have hd0 : (density = 0) = False := eq_false (ne_of_gt hdens)
  by_cases h2 : n = 2
  · subst h2
    obtain ⟨p, q, rfl⟩ := List.length_eq_two.mp hlen
    have hp := hb p (by simp)
    have hq := hb q (by simp)
    have key : (regularGeneratePattern sqrt3 sqrt23
        (regularTilingInit 2 (.hyperCube 2 side) none) [p, q] density).map
        (fun st => st.tiles.length) =
      .ok ((stepLoop (fun _ x =>
            stepLoop (fun _ y =>
                [({ position := [x, y], shape := NDShape.hyperCube 2 side,
                    rotation := TileRot.scalar 0,
                    scale := density } : RegularTile K)])
              (side / density) q.2 0 q.1)
          (side / density) p.2 0 p.1).length) := by
      simp only [regularGeneratePattern, regularTilingInit,
        calculateOptimalSpacing, generate2dRegularTiling, hd0, if_false,
        if_true, NDShape.isHyperCube, Except.map]
    rw [key]
    have hone : ∀ (x : K) (i : Nat) (y : K),
        ([({ position := [x, y], shape := NDShape.hyperCube 2 side,
             rotation := TileRot.scalar 0,
             scale := density } : RegularTile K)]).length = 1 :=
      fun _ _ _ => rfl
    have hinner : ∀ (i : Nat) (x : K),
        (stepLoop (fun _ y =>
            [({ position := [x, y], shape := NDShape.hyperCube 2 side,
                rotation := TileRot.scalar 0,
                scale := density } : RegularTile K)])
          (side / density) q.2 0 q.1).length =
          (⌊(q.2 - q.1) / (side / density)⌋).toNat + 1 := by
      intro i x
      rw [stepLoop_length_const _ _ _ 1 hs (hone x) 0 q.1 (le_of_lt hq)]
      ring
    rw [stepLoop_length_const _ _ _
      ((⌊(q.2 - q.1) / (side / density)⌋).toNat + 1) hs
      (fun i x => hinner i x) 0 p.1 (le_of_lt hp)]
    simp [List.prod_cons]
  · by_cases h3 : n = 3
    · subst h3
      obtain ⟨p, q, r, rfl⟩ := List.length_eq_three.mp hlen
      have hp := hb p (by simp)
      have hq := hb q (by simp)
      have hr := hb r (by simp)
      have key : (regularGeneratePattern sqrt3 sqrt23
          (regularTilingInit 3 (.hyperCube 3 side) none) [p, q, r]
          density).map (fun st => st.tiles.length) =
        .ok ((stepLoop (fun _ x =>
              stepLoop (fun _ y =>
                  stepLoop (fun _ z =>
                      [({ position := [x, y, z],
                          shape := NDShape.hyperCube 3 side,
                          rotation := TileRot.vec [0, 0, 0],
                          scale := density } : RegularTile K)])
                    (side / density) r.2 0 r.1)
                (side / density) q.2 0 q.1)
            (side / density) p.2 0 p.1).length) := by
        have h32 : (((3:Nat) = 2)) = False := eq_false (by decide)
        simp only [regularGeneratePattern, regularTilingInit,
          calculateOptimalSpacing, generate3dRegularTiling, hd0, h32,
          if_false, if_true, NDShape.isHyperCube, Except.map]
      rw [key]
      have hone : ∀ (x y : K) (i : Nat) (z : K),
          ([({ position := [x, y, z], shape := NDShape.hyperCube 3 side,
               rotation := TileRot.vec [0, 0, 0],
               scale := density } : RegularTile K)]).length = 1 :=
        fun _ _ _ _ => rfl
      have hinner2 : ∀ (x : K) (i : Nat) (y : K),
          (stepLoop (fun _ z =>
              [({ position := [x, y, z], shape := NDShape.hyperCube 3 side,
                  rotation := TileRot.vec [0, 0, 0],
                  scale := density } : RegularTile K)])
            (side / density) r.2 0 r.1).length =
            (⌊(r.2 - r.1) / (side / density)⌋).toNat + 1 := by
        intro x i y
        rw [stepLoop_length_const _ _ _ 1 hs (hone x y) 0 r.1 (le_of_lt hr)]
        ring
      have hinner : ∀ (i : Nat) (x : K),
          (stepLoop (fun _ y =>
              stepLoop (fun _ z =>
                  [({ position := [x, y, z],
                      shape := NDShape.hyperCube 3 side,
                      rotation := TileRot.vec [0, 0, 0],
                      scale := density } : RegularTile K)])
                (side / density) r.2 0 r.1)
            (side / density) q.2 0 q.1).length =
            ((⌊(q.2 - q.1) / (side / density)⌋).toNat + 1) *
              ((⌊(r.2 - r.1) / (side / density)⌋).toNat + 1) := by
        intro i x
        exact stepLoop_length_const _ _ _ _ hs (hinner2 x) 0 q.1
          (le_of_lt hq)
      rw [stepLoop_length_const _ _ _
        (((⌊(q.2 - q.1) / (side / density)⌋).toNat + 1) *
          ((⌊(r.2 - r.1) / (side / density)⌋).toNat + 1)) hs
        (fun i x => hinner i x) 0 p.1 (le_of_lt hp)]
      simp [List.prod_cons, Nat.mul_assoc]
    · obtain ⟨ps, hps, hplen⟩ :=
        generateGridPoints_ok (side / density) hs bs hb
      rw [hlen] at hps
      simp only [regularGeneratePattern, regularTilingInit,
        calculateOptimalSpacing]
      rw [if_neg h2, if_neg h3]
      simp only [generateNdRegularTiling, hd0, if_false, hps, Except.map]
      simp [hplen]

/-- A successful `regular` generation stores the new bounds. -/
theorem regularGeneratePattern_ok_bounds [FloorRing K] (sqrt3 sqrt23 : K)
    (st : RegularTilingState K) (bs : List (K × K)) (density : K)
    (st' : RegularTilingState K)
    (h : regularGeneratePattern sqrt3 sqrt23 st bs density = .ok st') :
    st'.bounds = some bs := by
  simp only [regularGeneratePattern] at h
  split at h
  · injection h with h
    subst h
    rfl
  · exact absurd h (by simp)

/-- Evaluation of `get_coverage_efficiency` on nonempty bounds with
nonempty axis intervals, together with the `[0, 1]` range. -/
theorem getCoverageEfficiency_formula (shapeVolume : K)
    (tiles : List (RegularTile K)) (bs : List (K × K)) (hv : 0 ≤ shapeVolume)
    (hne : bs ≠ []) (hb : ∀ p ∈ bs, p.1 < p.2) :
    getCoverageEfficiency shapeVolume tiles (some bs) =
      min (shapeVolume * tiles.length / ((bs.map fun b => b.2 - b.1).prod)) 1 ∧
    0 ≤ getCoverageEfficiency shapeVolume tiles (some bs) ∧
    getCoverageEfficiency shapeVolume tiles (some bs) ≤ 1 := by
  have hprod : 0 < ((bs.map fun b => b.2 - b.1).prod) := by
    apply List.prod_pos
    intro a ha
    obtain ⟨p, hp, rfl⟩ := List.mem_map.mp ha
    have := hb p hp
    linarith
  have hx : 0 ≤ shapeVolume * tiles.length / ((bs.map fun b => b.2 - b.1).prod) :=
    div_nonneg (mul_nonneg hv (by positivity)) (le_of_lt hprod)
  have hmain : getCoverageEfficiency shapeVolume tiles (some bs) =
      min (shapeVolume * tiles.length /
        ((bs.map fun b => b.2 - b.1).prod)) 1 := by
    cases tiles with
    | nil =>
      obtain ⟨b, rest, rfl⟩ := List.exists_cons_of_ne_nil hne
      simp [getCoverageEfficiency, boundsTruthy]
    | cons t ts =>
      obtain ⟨b, rest, rfl⟩ := List.exists_cons_of_ne_nil hne
      simp only [List.map_cons, List.prod_cons] at hprod
      simp [getCoverageEfficiency, boundsTruthy, hprod]
  refine ⟨hmain, ?_, ?_⟩
  · rw [hmain]
    exact le_min hx zero_le_one
  · rw [hmain]
    exact min_le_right _ _

/-- Concrete evaluation: generating 2D unit cubes over `[[0,1],[0,1]]`
at density 1 yields the four-tile state `c3AfterFirst`. -/
theorem generate_unitSquare_eval :
    regularGeneratePattern (0:ℚ) 0
        (regularTilingInit 2 (.hyperCube 2 1) none) [(0, 1), (0, 1)] 1 =
      .ok c3AfterFirst := by
  have hkey : regularGeneratePattern (0:ℚ) 0
      (regularTilingInit 2 (.hyperCube 2 1) none) [(0, 1), (0, 1)] 1 =
    .ok { dimensions := 2, baseShape := .hyperCube 2 1, spacing := 1,
          tiles := stepLoop (fun _ x =>
              stepLoop (fun _ y =>
                  [{ position := [x, y], shape := .hyperCube 2 1,
                     rotation := .scalar 0, scale := 1 }])
                ((1:ℚ) / 1) 1 0 0)
            ((1:ℚ) / 1) 1 0 0,
          bounds := some [(0, 1), (0, 1)] } := rfl
  rw [hkey]
  have hsp : ((1:ℚ) / 1) = 1 := by norm_num
  simp only [hsp]
  have hn : (⌊((1:ℚ) - 0) / 1⌋).toNat = 1 := by
    norm_num
  have hinner : ∀ x : ℚ, stepLoop (fun _ y =>
      [({ position := [x, y], shape := .hyperCube 2 1,
          rotation := .scalar 0, scale := 1 } : RegularTile ℚ)]) 1 1 0 0 =
      [{ position := [x, 0], shape := .hyperCube 2 1, rotation := .scalar 0,
         scale := 1 },
       { position := [x, 1], shape := .hyperCube 2 1, rotation := .scalar 0,
         scale := 1 }] := by
    intro x
    rw [stepLoop_eq _ 1 1 one_pos 1 0 0 (by norm_num) hn]
    rw [show List.range 2 = [0, 1] from rfl]
    norm_num [List.flatMap_cons]
  rw [stepLoop_eq _ 1 1 one_pos 1 0 0 (by norm_num) hn]
  rw [show List.range 2 = [0, 1] from rfl]
  norm_num [List.flatMap_cons, hinner, c3AfterFirst, c3Tiles]

/-- C1: for every bound region with `min < max` per axis, every positive
density and every dimension count, `generate_pattern` of a regular tiling
with a hypercube base of positive side produces tile count
`∏ (⌊(max-min)/spacing⌋ + 1)` with `spacing = side/density` (the grid
point count); in particular 2D unit cubes over `[[0,5],[0,5]]` at
density 1 give 36 tiles (see the witness). -/
theorem C1_regular_cube_tile_count [FloorRing K] (sqrt3 sqrt23 side density : K)
    (n : Nat) (bs : List (K × K)) (hside : 0 < side) (hdens : 0 < density)
    (hlen : bs.length = n) (hb : ∀ p ∈ bs, p.1 < p.2) :
    (regularGeneratePattern sqrt3 sqrt23
        (regularTilingInit n (.hyperCube n side) none) bs density).map
        (fun st => st.tiles.length) =
      .ok ((bs.map fun p =>
        (⌊(p.2 - p.1) / (side / density)⌋).toNat + 1).prod) :=
  regularCube_tileCount sqrt3 sqrt23 side density n bs hside hdens hlen hb

/-- Witness for C1: 2D unit cubes over `[[0,5],[0,5]]` at density 1 give
exactly 36 tiles. -/
theorem C1_regular_cube_tile_count_witness :
    ((0:ℚ) < 1) ∧
    (regularGeneratePattern (0:ℚ) 0
        (regularTilingInit 2 (.hyperCube 2 1) none)
        [(0, 5), (0, 5)] 1).map (fun st => st.tiles.length) = .ok 36 := by
  refine ⟨by norm_num, ?_⟩
  have h := C1_regular_cube_tile_count (K := ℚ) 0 0 1 1 2 [(0, 5), (0, 5)]
    (by norm_num) (by norm_num) rfl (by norm_num [List.forall_mem_cons])
  rw [h]
  refine congrArg Except.ok ?_
  have e5 : ⌊(5:ℚ)⌋ = (5:ℤ) := by
    rw [show (5:ℚ) = ((5:ℤ):ℚ) by norm_num]
    exact Int.floor_intCast 5
  norm_num [e5]
  decide

/-- C2: after a successful regular generation on nonempty bounds with
`min < max` per axis, `get_coverage_efficiency` returns
`min((tile_count * base_shape_volume) / total_bound_volume, 1)`, a value
in `[0, 1]`; with no tiles or no stored bounds it returns 0. -/
theorem C2_regular_coverage [FloorRing K] :
    (∀ (sqrt3 sqrt23 density shapeVolume : K) (st st' : RegularTilingState K)
        (bs : List (K × K)),
        0 ≤ shapeVolume → bs ≠ [] → (∀ p ∈ bs, p.1 < p.2) →
        regularGeneratePattern sqrt3 sqrt23 st bs density = .ok st' →
        getCoverageEfficiency shapeVolume st'.tiles st'.bounds =
          min (shapeVolume * st'.tiles.length /
            ((bs.map fun b => b.2 - b.1).prod)) 1 ∧
        0 ≤ getCoverageEfficiency shapeVolume st'.tiles st'.bounds ∧
        getCoverageEfficiency shapeVolume st'.tiles st'.bounds ≤ 1) ∧
    (∀ (shapeVolume : K) (tiles : List (RegularTile K)),
        getCoverageEfficiency shapeVolume tiles none = 0) ∧
    (∀ (shapeVolume : K) (bounds : Option (List (K × K))),
        getCoverageEfficiency shapeVolume [] bounds = 0) := by
  refine ⟨?_, ?_, ?_⟩
  · intro sqrt3 sqrt23 density shapeVolume st st' bs hv hne hb hok
    rw [regularGeneratePattern_ok_bounds sqrt3 sqrt23 st bs density st' hok]
    exact getCoverageEfficiency_formula shapeVolume st'.tiles bs hv hne hb
  · intro shapeVolume tiles
    simp [getCoverageEfficiency, boundsTruthy]
  · intro shapeVolume bounds
    simp [getCoverageEfficiency]

/-- Witness for C2: the spec scenario (36 unit cubes over a 5 x 5
region) has coverage `min(36/25, 1) = 1`. -/
theorem C2_regular_coverage_witness :
    (0:ℚ) ≤ 1 ∧
    getCoverageEfficiency (1:ℚ) c3AfterFirst.tiles c3AfterFirst.bounds =
      min ((1:ℚ) * c3AfterFirst.tiles.length /
        ((([((0:ℚ), 1), (0, 1)]).map fun b => b.2 - b.1).prod)) 1 := by
  refine ⟨by norm_num, ?_⟩
  exact ((C2_regular_coverage (K := ℚ)).1 0 0 1 1
    (regularTilingInit 2 (.hyperCube 2 1) none) c3AfterFirst
    [(0, 1), (0, 1)] (by norm_num) (by simp)
    (by norm_num [List.forall_mem_cons]) generate_unitSquare_eval).1

/-- C4 (amended): when the bound region is smaller than one spacing unit
along every axis (with `min < max`), a regular cubic tiling produces
exactly one tile -- one grid point per axis -- and never zero. -/
theorem C4_small_region_single_tile [FloorRing K]
    (sqrt3 sqrt23 side density : K) (n : Nat) (bs : List (K × K))
    (hside : 0 < side) (hdens : 0 < density) (hlen : bs.length = n)
    (hb : ∀ p ∈ bs, p.1 < p.2 ∧ p.2 - p.1 < side / density) :
    (regularGeneratePattern sqrt3 sqrt23
        (regularTilingInit n (.hyperCube n side) none) bs density).map
        (fun st => st.tiles.length) = .ok 1 := by
  have h := regularCube_tileCount sqrt3 sqrt23 side density n bs hside hdens
    hlen (fun p hp => (hb p hp).1)
  rw [h]
  refine congrArg Except.ok (List.prod_eq_one ?_)
  intro a ha
  obtain ⟨p, hp, rfl⟩ := List.mem_map.mp ha
  obtain ⟨h1, h2⟩ := hb p hp
  have hs : 0 < side / density := div_pos hside hdens
  have hfl : ⌊(p.2 - p.1) / (side / density)⌋ = 0 := by
    rw [Int.floor_eq_zero_iff]
    constructor
    · exact div_nonneg (by linarith) (le_of_lt hs)
    · exact (div_lt_one hs).mpr h2
  simp [hfl]

/-- Witness for C4's amended statement: 2D unit cubes over
`[[0,1/2],[0,1/2]]` at density 1 (region smaller than one spacing unit
on both axes) give one tile. -/
theorem C4_small_region_single_tile_witness :
    ((0:ℚ) < 1) ∧
    (regularGeneratePattern (0:ℚ) 0
        (regularTilingInit 2 (.hyperCube 2 1) none)
        [(0, 1/2), (0, 1/2)] 1).map (fun st => st.tiles.length) = .ok 1 := by
  refine ⟨by norm_num, ?_⟩
  exact C4_small_region_single_tile (K := ℚ) 0 0 1 1 2 [(0, 1/2), (0, 1/2)]
    (by norm_num) (by norm_num) rfl
    (by norm_num [List.forall_mem_cons])

/-- Counterexample to C4 as stated: over `[[0,1/2],[0,1/2]]` with
spacing 1 the region is smaller than one spacing unit on both axes, yet
the generator produces one tile, not zero (each `while` loop runs at
least once when `min <= max`). -/
theorem C4_small_region_counterexample :
    (regularGeneratePattern (0:ℚ) 0
        (regularTilingInit 2 (.hyperCube 2 1) none)
        [(0, 1/2), (0, 1/2)] 1).map (fun st => st.tiles.length) = .ok 1 ∧
    (regularGeneratePattern (0:ℚ) 0
        (regularTilingInit 2 (.hyperCube 2 1) none)
        [(0, 1/2), (0, 1/2)] 1).map (fun st => st.tiles.length) ≠ .ok 0 := by
  have h := regularCube_tileCount (K := ℚ) 0 0 1 1 2 [(0, 1/2), (0, 1/2)]
    (by norm_num) (by norm_num) rfl (by norm_num [List.forall_mem_cons])
  have h1 : (regularGeneratePattern (0:ℚ) 0
      (regularTilingInit 2 (.hyperCube 2 1) none)
      [(0, 1/2), (0, 1/2)] 1).map (fun st => st.tiles.length) = .ok 1 := by
    rw [h]
    refine congrArg Except.ok ?_
    have e0 : ⌊(2⁻¹:ℚ)⌋ = (0:ℤ) := by
      rw [Int.floor_eq_zero_iff]
      norm_num [Set.mem_Ico]
    norm_num [e0]
  refine ⟨h1, ?_⟩
  rw [h1]
  simp

/-- C3 (amended): a `generate_pattern` call that raises does not keep
the previous tile collection -- the method clears `self.tiles` and
overwrites `self.bounds` before doing any work, so after an exception
the tile collection is empty and the bounds are the new ones (regular
and hexagonal generators alike). -/
theorem C3_generate_error_clears_tiles [FloorRing K] :
    (∀ (sqrt3 sqrt23 density : K) (st : RegularTilingState K)
        (bs : List (K × K)) (e : String) (st' : RegularTilingState K),
        regularGeneratePattern sqrt3 sqrt23 st bs density = .error (e, st') →
        st'.tiles = [] ∧ st'.bounds = some bs) ∧
    (∀ (cosF sinF : K → K) (piK density : K) (st : HexagonalTilingState K)
        (bs : List (K × K)) (e : String) (st' : HexagonalTilingState K),
        hexagonalGeneratePattern cosF sinF piK st bs density =
          .error (e, st') →
        st'.tiles = [] ∧ st'.bounds = some bs) := by
  constructor
  · intro sqrt3 sqrt23 density st bs e st' h
    simp only [regularGeneratePattern] at h
    split at h
    · exact absurd h (by simp)
    · simp only [Except.error.injEq, Prod.mk.injEq] at h
      obtain ⟨-, h4⟩ := h
      subst h4
      exact ⟨rfl, rfl⟩
  · intro cosF sinF piK density st bs e st' h
    simp only [hexagonalGeneratePattern] at h
    split at h
    · exact absurd h (by simp)
    · simp only [Except.error.injEq, Prod.mk.injEq] at h
      obtain ⟨-, h4⟩ := h
      subst h4
      exact ⟨rfl, rfl⟩

/-- Witness for C3's amended statement at a concrete failing call
(bounds list of length 1 against a 2D pattern). -/
theorem C3_generate_error_clears_tiles_witness :
    c3AfterError.tiles = [] ∧ c3AfterError.bounds = some [(0, 1)] := by
  refine (C3_generate_error_clears_tiles (K := ℚ)).1 0 0 1 c3AfterFirst
    [(0, 1)] "IndexError: list index out of range" c3AfterError ?_
  rfl

/-- Counterexample to C3 as stated: a pattern holding four tiles from a
previous generation loses them when a later `generate_pattern` call
raises (short bounds list): the stored tile collection afterwards is
empty, not the previous one. -/
theorem C3_counterexample :
    regularGeneratePattern (0:ℚ) 0
        (regularTilingInit 2 (.hyperCube 2 1) none) [(0, 1), (0, 1)] 1 =
      .ok c3AfterFirst ∧
    regularGeneratePattern (0:ℚ) 0 c3AfterFirst [(0, 1)] 1 =
      .error ("IndexError: list index out of range", c3AfterError) ∧
    c3AfterFirst.tiles ≠ [] ∧ c3AfterError.tiles = [] := by
  exact ⟨generate_unitSquare_eval, rfl, by simp [c3AfterFirst, c3Tiles], rfl⟩

/-- C9: regenerating with identical configuration, bounds, density and
(for Voronoi) identical explicit seed points yields identical results --
`generate_pattern` does not depend on the previously stored tiles or
bounds. -/
theorem C9_generate_deterministic [FloorRing K] :
    (∀ (sqrt3 sqrt23 : K) (n : Nat) (sh : NDShape K) (sp : K)
        (t1 t2 : List (RegularTile K)) (b1 b2 : Option (List (K × K)))
        (bs : List (K × K)) (d : K),
        regularGeneratePattern sqrt3 sqrt23
            { dimensions := n, baseShape := sh, spacing := sp, tiles := t1,
              bounds := b1 } bs d =
          regularGeneratePattern sqrt3 sqrt23
            { dimensions := n, baseShape := sh, spacing := sp, tiles := t2,
              bounds := b2 } bs d) ∧
    (∀ (n : Nat) (seeds : List (List K)) (t1 t2 : List (VoronoiTile K))
        (b1 b2 : Option (List (K × K))) (bs : List (K × K)) (d : K),
        voronoiGeneratePattern
            { dimensions := n, seedPoints := seeds, tiles := t1,
              bounds := b1 } bs d =
          voronoiGeneratePattern
            { dimensions := n, seedPoints := seeds, tiles := t2,
              bounds := b2 } bs d) :=
  ⟨fun _ _ _ _ _ _ _ _ _ _ _ => rfl, fun _ _ _ _ _ _ _ _ => rfl⟩

/-- C10 (amended): a 2D or 3D regular tiling whose base shape is none
of `HyperCube`, `HyperSphere`, `Simplex` (e.g. an ellipsoid or pyramid)
generates without error and yields an empty tile list for every nonzero
density: every `isinstance` branch falls through.  Density 0 is
excluded because `spacing = self.spacing / density` raises
`ZeroDivisionError` before the shape dispatch (see the
counterexample). -/
theorem C10_other_shapes_empty [FloorRing K] (sqrt3 sqrt23 spacing density : K)
    (sh : NDShape K) (hc : sh.isHyperCube = false)
    (hsp : sh.isHyperSphere = false) (hsi : sh.isSimplex = false)
    (hd : density ≠ 0) (t0 : List (RegularTile K))
    (b0 : Option (List (K × K))) (bs : List (K × K)) :
    (bs.length = 2 →
      regularGeneratePattern sqrt3 sqrt23
          { dimensions := 2, baseShape := sh, spacing := spacing,
            tiles := t0, bounds := b0 } bs density =
        .ok { dimensions := 2, baseShape := sh, spacing := spacing,
              tiles := [], bounds := some bs }) ∧
    (bs.length = 3 →
      regularGeneratePattern sqrt3 sqrt23
          { dimensions := 3, baseShape := sh, spacing := spacing,
            tiles := t0, bounds := b0 } bs density =
        .ok { dimensions := 3, baseShape := sh, spacing := spacing,
              tiles := [], bounds := some bs }) := by
  constructor
  · intro hlen
    obtain ⟨p, q, rfl⟩ := List.length_eq_two.mp hlen
    simp [regularGeneratePattern, generate2dRegularTiling, hc, hsp, hsi, hd]
  · intro hlen
    obtain ⟨p, q, r, rfl⟩ := List.length_eq_three.mp hlen
    simp [regularGeneratePattern, generate3dRegularTiling, hc, hsp, hd]

/-- Witness for C10: a 2D ellipsoid-based regular tiling over
`[[0,10],[0,10]]` generates no tiles and no error. -/
theorem C10_other_shapes_empty_witness :
    regularGeneratePattern (0:ℚ) 0
        { dimensions := 2, baseShape := .hyperEllipsoid 2 [1, 2],
          spacing := 1, tiles := [], bounds := none }
        [(0, 10), (0, 10)] 1 =
      .ok { dimensions := 2, baseShape := .hyperEllipsoid 2 [1, 2],
            spacing := 1, tiles := [], bounds := some [(0, 10), (0, 10)] } :=
  (C10_other_shapes_empty (K := ℚ) 0 0 1 1 (.hyperEllipsoid 2 [1, 2]) rfl rfl
    rfl (by norm_num) [] none [(0, 10), (0, 10)]).1 rfl

/-- Counterexample to C10 as stated ("for any bounds and density"): at
density 0 the generator raises `ZeroDivisionError` computing
`spacing = self.spacing / density` before the shape dispatch, so an
ellipsoid-based 2D regular tiling does not generate error-free at every
density. -/
theorem C10_density_zero_counterexample :
    regularGeneratePattern (0:ℚ) 0
        { dimensions := 2, baseShape := .hyperEllipsoid 2 [1, 2],
          spacing := 1, tiles := [], bounds := none }
        [(0, 1), (0, 1)] 0 =
      .error ("ZeroDivisionError: float division by zero",
        { dimensions := 2, baseShape := .hyperEllipsoid 2 [1, 2],
          spacing := 1, tiles := [], bounds := some [(0, 1), (0, 1)] }) ∧
    regularGeneratePattern (0:ℚ) 0
        { dimensions := 2, baseShape := .hyperEllipsoid 2 [1, 2],
          spacing := 1, tiles := [], bounds := none }
        [(0, 1), (0, 1)] 0 ≠
      .ok { dimensions := 2, baseShape := .hyperEllipsoid 2 [1, 2],
            spacing := 1, tiles := [], bounds := some [(0, 1), (0, 1)] } := by
  constructor
  · rfl
  · simp [regularGeneratePattern, generate2dRegularTiling]

/-- A `stepLoop` emitting singletons is a map over the visited
coordinates. -/
theorem stepLoop_singleton_map [FloorRing K] {α : Type} (g : K → α)
    (step lim : K) (i : Nat) (x0 : K) :
    stepLoop (fun _ x => [g x]) step lim i x0 = (axisPoints x0 lim step).map g := by
  by_cases h : step ≤ 0 ∨ lim < x0
  · rw [stepLoop.eq_def, dif_pos h, axisPoints, stepLoop.eq_def, dif_pos h]
    rfl
  · push_neg at h
    rw [stepLoop_eq _ step lim h.1 _ i x0 h.2 rfl,
      axisPoints_eq x0 lim step h.1 h.2, List.map_map, ← flatMap_singleton_map]
    rfl

/-- The seed loop of `VoronoiTiling.generate_pattern` succeeds when the
bounds and all seeds are long enough (always, outside 2D), producing one
cell per seed with consecutive seed indices. -/
theorem voronoiGenerateAux_ok (n : Nat) (bs : List (K × K)) (d : K)
    (hbs : 2 ≤ bs.length ∨ n ≠ 2) :
    ∀ (seeds : List (List K)) (i : Nat) (acc : List (VoronoiTile K)),
      (∀ s ∈ seeds, 2 ≤ s.length ∨ n ≠ 2) →
      ∃ ts, voronoiGenerateAux n bs d i seeds acc = .ok (acc ++ ts) ∧
        ts.map (fun t => t.seedIndex) = List.range' i seeds.length ∧
        ts.map (fun t => t.position) = seeds := by
  intro seeds
  induction seeds with
  | nil => exact fun i acc _ => ⟨[], by simp [voronoiGenerateAux], by simp, rfl⟩
  | cons sd rest ih =>
    intro i acc hseeds
    have hsd := hseeds sd (List.mem_cons_self _ _)
    have hrest := fun s hs => hseeds s (List.mem_cons_of_mem _ hs)
    have hcalc : ∃ vs, calculateVoronoiVertices n sd bs = .ok vs := by
      by_cases hn : n = 2
      · subst hn
        have hb2 : 2 ≤ bs.length := hbs.resolve_right (by simp)
        have hs2 : 2 ≤ sd.length := hsd.resolve_right (by simp)
        cases bs with
        | nil => simp at hb2
        | cons b1 bt =>
          cases bt with
          | nil => simp at hb2
          | cons b2 bt2 =>
            cases sd with
            | nil => simp at hs2
            | cons c1 ct =>
              cases ct with
              | nil => simp at hs2
              | cons c2 ct2 => exact ⟨_, rfl⟩
      · exact ⟨[], by simp [calculateVoronoiVertices, hn]⟩
    obtain ⟨vs, hvs⟩ := hcalc
    obtain ⟨ts, hts, hidx, hpos⟩ := ih (i + 1)
      (acc ++ [{ position := sd, seedIndex := i, shape := "voronoi_cell",
                 vertices := vs, scale := d }]) hrest
    refine ⟨{ position := sd, seedIndex := i, shape := "voronoi_cell",
              vertices := vs, scale := d } :: ts, ?_, ?_, ?_⟩
    · simp only [voronoiGenerateAux, hvs, hts]
      simp
    · simp only [List.map_cons, hidx]
      rfl
    · simp [hpos]

/-- C5: `VoronoiTiling.generate_pattern` on explicit seed points (one
coordinate per dimension, over a well-formed bound region) produces
exactly one tile per seed point, in input order, tagged with its index
in the input list; `get_coverage_efficiency` is the constant 1. -/
theorem C5_voronoi_one_tile_per_seed (n : Nat) (seeds : List (List K))
    (t0 : List (VoronoiTile K)) (b0 : Option (List (K × K)))
    (bs : List (K × K)) (d : K) (hbs : bs.length = n)
    (hseeds : ∀ s ∈ seeds, s.length = n) :
    (voronoiGeneratePattern
        { dimensions := n, seedPoints := seeds, tiles := t0, bounds := b0 }
        bs d).map
        (fun st => (st.tiles.map fun t => t.seedIndex,
          st.tiles.map fun t => t.position)) =
      .ok (List.range seeds.length, seeds) ∧
    (∀ st : VoronoiTilingState K, voronoiGetCoverageEfficiency st = 1) := by
  refine ⟨?_, fun _ => rfl⟩
  have hdisj : 2 ≤ bs.length ∨ n ≠ 2 := by
    by_cases hn : n = 2
    · exact Or.inl (by omega)
    · exact Or.inr hn
  have hsdisj : ∀ s ∈ seeds, 2 ≤ s.length ∨ n ≠ 2 := by
    intro s hs
    by_cases hn : n = 2
    · exact Or.inl (by have := hseeds s hs; omega)
    · exact Or.inr hn
  obtain ⟨ts, hts, hidx, hpos⟩ :=
    voronoiGenerateAux_ok n bs d hdisj seeds 0 [] hsdisj
  simp only [voronoiGeneratePattern, hts, List.nil_append, Except.map]
  rw [List.range_eq_range']
  simp [hidx, hpos]

/-- Witness for C5 at the spec scenario: 4 explicit seed points over
`[[0,6],[0,6]]` give 4 tiles with seed indices 0-3 in input order. -/
theorem C5_voronoi_one_tile_per_seed_witness :
    ((0:ℚ) ≤ 6) ∧
    (voronoiGeneratePattern
        { dimensions := 2,
          seedPoints := [[1, 1], [2, 4], [4, 2], [5, 5]],
          tiles := ([] : List (VoronoiTile ℚ)), bounds := none }
        [(0, 6), (0, 6)] 1).map
        (fun st => (st.tiles.map fun t => t.seedIndex,
          st.tiles.map fun t => t.position)) =
      .ok ([0, 1, 2, 3], [[1, 1], [2, 4], [4, 2], [5, 5]]) := by
  refine ⟨by norm_num, ?_⟩
  have h := (C5_voronoi_one_tile_per_seed (K := ℚ) 2
    [[1, 1], [2, 4], [4, 2], [5, 5]] [] none [(0, 6), (0, 6)] 1 rfl
    (by norm_num [List.forall_mem_cons])).1
  simpa using h

/-- C6: `HexagonalTiling.generate_pattern` places tiles row-major: row
`r` sits at `y = y_min + r * (side * sqrt(3) / density)` (vertical
spacing `side*sqrt(3)/density`), and within a row the x positions run
from `x_min` (offset by half the horizontal spacing on odd rows) at
horizontal spacing `1.5 * side / density`; `get_coverage_efficiency` is
the constant 1 regardless of bounds or side length. -/
theorem C6_hexagonal_spec (side density xmin xmax ymin ymax : ℝ)
    (rest : List (ℝ × ℝ)) (t0 : List (HexTile ℝ))
    (b0 : Option (List (ℝ × ℝ))) (hside : 0 < side) (hdens : 0 < density)
    (hx : xmin < xmax) (hy : ymin < ymax) :
    hexagonalGeneratePattern Real.cos Real.sin Real.pi
        { hexagonalTilingInit (Real.sqrt 3) side with
          tiles := t0, bounds := b0 }
        ((xmin, xmax) :: (ymin, ymax) :: rest) density =
      .ok { sideLength := side, hexagonHeight := side * Real.sqrt 3,
            hexagonWidth := side * 2,
            tiles := (List.range
                ((⌊(ymax - ymin) / (side * Real.sqrt 3 / density)⌋).toNat +
                  1)).flatMap
              fun row =>
                (axisPoints
                    (xmin +
                      (if row % 2 == 1 then 3 / 2 * side / density / 2 else 0))
                    xmax (3 / 2 * side / density)).map
                  fun x =>
                    { position :=
                        [x, ymin + (row : ℝ) * (side * Real.sqrt 3 / density)],
                      shape := "hexagon", sideLength := side * density,
                      rotation := 0, scale := density,
                      vertices := getHexagonVertices Real.cos Real.sin Real.pi
                        x (ymin + (row : ℝ) * (side * Real.sqrt 3 / density))
                        (side * density) },
            bounds := some ((xmin, xmax) :: (ymin, ymax) :: rest) } ∧
    (∀ st : HexagonalTilingState ℝ, hexagonalGetCoverageEfficiency st = 1) := by
  refine ⟨?_, fun _ => rfl⟩
  have hsq : (0:ℝ) < Real.sqrt 3 := Real.sqrt_pos.mpr (by norm_num)
  have hsy : 0 < side * Real.sqrt 3 / density := by positivity
  have hkey : hexagonalGeneratePattern Real.cos Real.sin Real.pi
      { hexagonalTilingInit (Real.sqrt 3) side with
        tiles := t0, bounds := b0 }
      ((xmin, xmax) :: (ymin, ymax) :: rest) density =
    .ok { sideLength := side, hexagonHeight := side * Real.sqrt 3,
          hexagonWidth := side * 2,
          tiles := stepLoop (fun row y =>
              stepLoop (fun _ x =>
                  [{ position := [x, y], shape := "hexagon",
                     sideLength := side * density, rotation := 0,
                     scale := density,
                     vertices := getHexagonVertices Real.cos Real.sin Real.pi
                       x y (side * density) }])
                (side * 2 * (3 / 4) / density) xmax 0
                (xmin +
                  (if row % 2 == 1 then side * 2 * (3 / 4) / density / 2
                   else 0)))
            (side * Real.sqrt 3 / density) ymax 0 ymin,
          bounds := some ((xmin, xmax) :: (ymin, ymax) :: rest) } := rfl
  rw [hkey]
  have hsx : side * 2 * (3 / 4) / density = 3 / 2 * side / density := by
    ring
  simp only [hsx]
  refine congrArg Except.ok ?_
  refine congrArg (fun ts => HexagonalTilingState.mk side
    (side * Real.sqrt 3) (side * 2) ts
    (some ((xmin, xmax) :: (ymin, ymax) :: rest))) ?_
  rw [stepLoop_eq _ (side * Real.sqrt 3 / density) ymax hsy _ 0 ymin
    (le_of_lt hy) rfl]
  apply congrArg
  funext j
  simp only [Nat.zero_add]
  exact stepLoop_singleton_map _ (3 / 2 * side / density) xmax 0 _

/-- Witness for C6 at side 1, density 1, bounds `[[0,2],[0,2]]`. -/
theorem C6_hexagonal_spec_witness :
    ((0:ℝ) < 1) ∧
    hexagonalGeneratePattern Real.cos Real.sin Real.pi
        { hexagonalTilingInit (Real.sqrt 3) 1 with
          tiles := ([] : List (HexTile ℝ)), bounds := none }
        (((0:ℝ), (2:ℝ)) :: ((0:ℝ), (2:ℝ)) :: []) 1 =
      .ok { sideLength := 1, hexagonHeight := 1 * Real.sqrt 3,
            hexagonWidth := 1 * 2,
            tiles := (List.range
                ((⌊((2:ℝ) - 0) / (1 * Real.sqrt 3 / 1)⌋).toNat + 1)).flatMap
              fun row =>
                (axisPoints
                    ((0:ℝ) +
                      (if row % 2 == 1 then 3 / 2 * 1 / 1 / 2 else 0))
                    2 (3 / 2 * 1 / 1)).map
                  fun x =>
                    { position :=
                        [x, (0:ℝ) + (row : ℝ) * (1 * Real.sqrt 3 / 1)],
                      shape := "hexagon", sideLength := 1 * 1,
                      rotation := 0, scale := 1,
                      vertices := getHexagonVertices Real.cos Real.sin Real.pi
                        x ((0:ℝ) + (row : ℝ) * (1 * Real.sqrt 3 / 1)) (1 * 1) },
            bounds := some (((0:ℝ), (2:ℝ)) :: ((0:ℝ), (2:ℝ)) :: []) } :=
  ⟨by norm_num,
    (C6_hexagonal_spec 1 1 0 2 0 2 [] [] none (by norm_num) (by norm_num)
      (by norm_num) (by norm_num)).1⟩

/-- Bounds conversion succeeds when every inner list has at least two
entries. -/
theorem convertBounds_ok (bs : List (List K)) (h : ∀ b ∈ bs, 2 ≤ b.length) :
    ∃ cs, convertBounds bs = .ok cs := by
  induction bs with
  | nil => exact ⟨[], rfl⟩
  | cons b rest ih =>
    obtain ⟨cs, hcs⟩ := ih fun b hb => h b (List.mem_cons_of_mem _ hb)
    have hb2 := h b (List.mem_cons_self _ _)
    cases b with
    | nil => simp at hb2
    | cons x t =>
      cases t with
      | nil => simp at hb2
      | cons y t2 =>
        exact ⟨(x, y) :: cs, by simp [convertBounds, hcs, Except.map]⟩

/-- C7: a well-formed hexagonal request with `dimensions = 3` is
rejected with a message containing "only supported in 2D", and a
well-formed 2D Voronoi request with neither `seed_points` nor
`num_random_seeds` is rejected with a message containing
"requires either". -/
theorem C7_create_tiling_errors :
    (∀ (sqrt3 : K) (randomSeeds : Nat → List (List K))
        (req : TilingRequest K),
        req.tilingType = "hexagonal" → req.dimensions = 3 →
        req.bounds.length = 3 → (∀ b ∈ req.bounds, 2 ≤ b.length) →
        createTiling sqrt3 randomSeeds req =
          .error "Hexagonal tiling is only supported in 2D" ∧
        strContains "only supported in 2D"
          "Hexagonal tiling is only supported in 2D") ∧
    (∀ (sqrt3 : K) (randomSeeds : Nat → List (List K))
        (req : TilingRequest K),
        req.tilingType = "voronoi" → req.dimensions = 2 →
        req.bounds.length = 2 → (∀ b ∈ req.bounds, 2 ≤ b.length) →
        req.seedPoints = none → req.numRandomSeeds = none →
        createTiling sqrt3 randomSeeds req =
          .error
            "Voronoi tiling requires either \x27seed_points\x27 or \x27num_random_seeds\x27" ∧
        strContains "requires either"
          "Voronoi tiling requires either \x27seed_points\x27 or \x27num_random_seeds\x27") := by
  constructor
  · intro sqrt3 rs req ht hd hlen hwf
    obtain ⟨cs, hcs⟩ := convertBounds_ok req.bounds hwf
    refine ⟨?_, "Hexagonal tiling is ", "", by decide⟩
    have c0 : (((3:Nat) ≠ 3)) = False := eq_false (by decide)
    have c1 : ((("hexagonal":String) = "regular")) = False :=
      eq_false (by decide)
    have c2 : ((("hexagonal":String) = "hexagonal")) = True := eq_true rfl
    have c3 : (((3:Nat) ≠ 2)) = True := eq_true (by decide)
    simp only [createTiling, ht, hd, hlen, hcs, c0, c1, c2, c3, if_false,
      if_true]
  · intro sqrt3 rs req ht hd hlen hwf hsp hnr
    obtain ⟨cs, hcs⟩ := convertBounds_ok req.bounds hwf
    refine ⟨?_, "Voronoi tiling ",
      " \x27seed_points\x27 or \x27num_random_seeds\x27", by decide⟩
    have c0 : (((2:Nat) ≠ 2)) = False := eq_false (by decide)
    have c1 : ((("voronoi":String) = "regular")) = False :=
      eq_false (by decide)
    have c2 : ((("voronoi":String) = "hexagonal")) = False :=
      eq_false (by decide)
    have c3 : ((("voronoi":String) = "voronoi")) = True := eq_true rfl
    simp only [createTiling, ht, hd, hlen, hcs, hsp, hnr, c0, c1, c2, c3,
      if_false, if_true]

/-- Witness for C7 at concrete requests. -/
theorem C7_create_tiling_errors_witness :
    hexReq3.dimensions = 3 ∧ vorReqNoSeeds.seedPoints = none ∧
    createTiling (0:ℚ) (fun _ => []) hexReq3 =
      .error "Hexagonal tiling is only supported in 2D" ∧
    createTiling (0:ℚ) (fun _ => []) vorReqNoSeeds =
      .error
        "Voronoi tiling requires either \x27seed_points\x27 or \x27num_random_seeds\x27" := by
  refine ⟨rfl, rfl, ?_, ?_⟩
  · exact ((C7_create_tiling_errors (K := ℚ)).1 0 (fun _ => []) hexReq3 rfl
      rfl rfl (by norm_num [hexReq3, List.forall_mem_cons])).1
  · exact ((C7_create_tiling_errors (K := ℚ)).2 0 (fun _ => []) vorReqNoSeeds
      rfl rfl rfl (by norm_num [vorReqNoSeeds, List.forall_mem_cons]) rfl
      rfl).1

/-- C8: the analyzer coordination-number and vertex-configuration
tables: 6 and "6.6.6" for hexagonal patterns, `2*dimensions` and
"4.4.4.4" for cube-based patterns, `dimensions+1` and "3.3.3.3.3.3" for
simplex-based patterns, and 4 and "unknown" otherwise. -/
theorem C8_analyzer_tables :
    (∀ (bsh : Option (NDShape K)) (d : Nat),
        calculateCoordinationNumber "hexagonal" bsh d = 6 ∧
        getVertexConfig "hexagonal" bsh = "6.6.6") ∧
    (∀ (d m : Nat) (side : K),
        calculateCoordinationNumber "regular" (some (.hyperCube m side)) d =
          2 * d ∧
        getVertexConfig "regular" (some (.hyperCube m side)) = "4.4.4.4") ∧
    (∀ (d m : Nat) (side : K),
        calculateCoordinationNumber "regular" (some (.simplex m side)) d =
          d + 1 ∧
        getVertexConfig "regular" (some (.simplex m side)) = "3.3.3.3.3.3") ∧
    (∀ (pt : String) (bsh : Option (NDShape K)) (d : Nat),
        pt ≠ "hexagonal" →
        (∀ sh, bsh = some sh →
          sh.isHyperCube = false ∧ sh.isSimplex = false) →
        calculateCoordinationNumber pt bsh d = 4 ∧
        getVertexConfig pt bsh = "unknown") := by
  have creg : ((("regular":String) = "hexagonal")) = False :=
    eq_false (by decide)
  refine ⟨?_, ?_, ?_, ?_⟩
  · intro bsh d
    constructor
    · simp only [calculateCoordinationNumber, if_pos rfl, if_true]
    · simp only [getVertexConfig, if_pos rfl, if_true]
  · intro d m side
    constructor
    · simp only [calculateCoordinationNumber, creg, if_false,
        NDShape.isHyperCube, if_true]
    · simp only [getVertexConfig, creg, if_false, NDShape.isHyperCube,
        if_true]
  · intro d m side
    constructor
    · simp only [calculateCoordinationNumber, creg, if_false,
        NDShape.isHyperCube, NDShape.isSimplex, Bool.false_eq_true,
        if_true]
    · simp only [getVertexConfig, creg, if_false, NDShape.isHyperCube,
        NDShape.isSimplex, Bool.false_eq_true, if_true]
  · intro pt bsh d hpt hsh
    cases bsh with
    | none =>
      constructor
      · simp [calculateCoordinationNumber, hpt]
      · simp [getVertexConfig, hpt]
    | some sh =>
      obtain ⟨h1, h2⟩ := hsh sh rfl
      constructor
      · simp [calculateCoordinationNumber, hpt, h1, h2]
      · simp [getVertexConfig, hpt, h1, h2]

/-- Witness for C8: a Voronoi pattern (no base shape) gets the default
coordination number 4 and vertex configuration "unknown". -/
theorem C8_analyzer_tables_witness :
    ("voronoi" : String) ≠ "hexagonal" ∧
    calculateCoordinationNumber (K := ℚ) "voronoi" none 3 = 4 ∧
    getVertexConfig (K := ℚ) "voronoi" none = "unknown" := by
  refine ⟨by decide, ?_⟩
  exact (C8_analyzer_tables (K := ℚ)).2.2.2 "voronoi" none 3 (by decide)
    (fun sh hsh => by simp at hsh)

end GeometryEngine

